import Mathlib

/-!
Shallow embedding of the evaluation-to-recommendation pipeline of the
rag-evaluation-monitoring-system repository.

Python floats are modelled as rationals (ℚ): every operation the embedded
code performs on scores (comparison, sum, division by a list length) is
exact, and no claim under study depends on floating-point rounding.
Optional floats become `Option ℚ`.  Python dicts with a fixed key set
become structures; the empty dict default of `score_distribution` is
modelled as `none`.

Sources embedded (file and symbol names follow the repository):
  - src/rems/core/schemas.py         (data model)
  - src/rems/core/metrics.py         (MetricsEvaluator.evaluate_interactions;
                                      the external RAGAS scorer is an oracle
                                      parameter supplying the per-row scores)
  - src/rems/core/evaluator.py       (RAGEvaluator)
  - src/rems/core/diagnostic.py      (diagnose, _create_issue)
  - src/rems/core/recommendations.py (generate_recommendations)
  - src/rems/evaluators/orchestrator.py (EvaluationOrchestrator._calculate_metrics)
-/

namespace Rems

/-- Embeds `Severity` from src/rems/core/schemas.py. -/
inductive Severity where
  | critical
  | high
  | medium
  | low
deriving DecidableEq, Repr

/-- Embeds `Severity.value` (the str value of the Python enum). -/
def Severity.value : Severity → String
  | .critical => "critical"
  | .high => "high"
  | .medium => "medium"
  | .low => "low"

/-- Embeds `QualityLevel` from src/rems/core/schemas.py. -/
inductive QualityLevel where
  | excellent
  | good
  | acceptable
  | poor
  | critical
deriving DecidableEq, Repr

/-- Embeds `Interaction` from src/rems/core/schemas.py (metadata elided: no
claim depends on it). -/
structure Interaction where
  query : String
  response : String
  contexts : List String
deriving DecidableEq, Repr

/-- Embeds `InteractionResult` from src/rems/core/schemas.py. -/
structure InteractionResult where
  interaction : Interaction
  context_precision : Option ℚ := none
  context_relevancy : Option ℚ := none
  faithfulness : Option ℚ := none
  answer_relevancy : Option ℚ := none
  overall_score : Option ℚ := none
  has_hallucination : Bool := false
deriving DecidableEq, Repr

/-- Embeds `EvaluationConfig` from src/rems/core/schemas.py with its default
field values. -/
structure EvaluationConfig where
  faithfulness_threshold : ℚ := 7/10
  context_precision_threshold : ℚ := 7/10
  context_relevancy_threshold : ℚ := 7/10
  answer_relevancy_threshold : ℚ := 7/10
  hallucination_rate_threshold : ℚ := 1/10
  excellent_threshold : ℚ := 9/10
  good_threshold : ℚ := 75/100
  acceptable_threshold : ℚ := 6/10
  poor_threshold : ℚ := 4/10
  retrieval_weight : ℚ := 35/100
  generation_weight : ℚ := 65/100
deriving DecidableEq, Repr

/-- Embeds `DiagnosedIssue` from src/rems/core/schemas.py. -/
structure DiagnosedIssue where
  component : String
  symptom : String
  probable_causes : List String
  severity : Severity
  metric_name : String
  metric_value : ℚ
  threshold : ℚ
deriving DecidableEq, Repr

/-- Models one entry of a `parameter_adjustments` dict value: the config path,
the action, and the suggested value rendered as a string. -/
structure ParamAdjustment where
  param : String
  action : String
  suggested_value : String
deriving DecidableEq, Repr

/-- Embeds `Recommendation` from src/rems/core/schemas.py. -/
structure Recommendation where
  component : String
  priority : String
  issue : String
  suggestion : String
  parameter_adjustments : Option (List ParamAdjustment) := none
deriving DecidableEq, Repr

/-- Models the five-key `score_distribution` dict built by the aggregator. -/
structure ScoreDistribution where
  excellent : ℕ
  good : ℕ
  acceptable : ℕ
  poor : ℕ
  critical : ℕ
deriving DecidableEq, Repr

/-- Embeds `EvaluationResult` (aggregated metrics) from
src/rems/core/schemas.py; `score_distribution = none` models the empty dict
default. -/
structure EvaluationResult where
  avg_context_precision : Option ℚ := none
  avg_context_relevancy : Option ℚ := none
  avg_faithfulness : Option ℚ := none
  avg_answer_relevancy : Option ℚ := none
  hallucination_rate : Option ℚ := none
  total_hallucinations : ℕ := 0
  score_distribution : Option ScoreDistribution := none
deriving DecidableEq, Repr

/-- Python truthiness filter `[x for x in l if x]` over a list of optional
floats: keeps values that are present and nonzero (None and 0.0 are falsy). -/
def truthyVals (l : List (Option ℚ)) : List ℚ :=
  l.filterMap (fun o => o.bind (fun v => if v = 0 then none else some v))

/-- Python filter `[x for x in l if x is not None]` over optional floats. -/
def someVals (l : List (Option ℚ)) : List ℚ :=
  l.filterMap id

/-- Embeds the pattern `sum(xs) / len(xs) if xs else None`. -/
def listAvg (l : List ℚ) : Option ℚ :=
  if l.isEmpty then none else some (l.sum / l.length)

/-- Embeds the distribution dict comprehension of
`RAGEvaluator._aggregate_metrics` (src/rems/core/evaluator.py lines 185-198):
each count is the number of overall scores in the corresponding half-open
interval. -/
def scoreDistributionOf (config : EvaluationConfig) (scores : List ℚ) :
    ScoreDistribution :=
  { excellent := scores.countP (fun s => decide (config.excellent_threshold ≤ s))
    good := scores.countP
      (fun s => decide (config.good_threshold ≤ s ∧ s < config.excellent_threshold))
    acceptable := scores.countP
      (fun s => decide (config.acceptable_threshold ≤ s ∧ s < config.good_threshold))
    poor := scores.countP
      (fun s => decide (config.poor_threshold ≤ s ∧ s < config.acceptable_threshold))
    critical := scores.countP (fun s => decide (s < config.poor_threshold)) }

/-- Embeds `RAGEvaluator._aggregate_metrics` from src/rems/core/evaluator.py.
The four metric lists are filtered with Python truthiness (`if r.x`), which
drops both None and a present 0.0; the overall-score list is filtered with
`is not None`. -/
def aggregateMetrics (config : EvaluationConfig)
    (results : List InteractionResult) : EvaluationResult :=
  if results.isEmpty then {} else
  let ctx_prec := truthyVals (results.map (·.context_precision))
  let ctx_rel := truthyVals (results.map (·.context_relevancy))
  let faith := truthyVals (results.map (·.faithfulness))
  let ans_rel := truthyVals (results.map (·.answer_relevancy))
  let total_hallucinations := (results.filter (·.has_hallucination)).length
  let hallucination_rate : ℚ := (total_hallucinations : ℚ) / (results.length : ℚ)
  let scores := someVals (results.map (·.overall_score))
  { avg_context_precision := listAvg ctx_prec
    avg_context_relevancy := listAvg ctx_rel
    avg_faithfulness := listAvg faith
    avg_answer_relevancy := listAvg ans_rel
    hallucination_rate := some hallucination_rate
    total_hallucinations := total_hallucinations
    score_distribution := some (scoreDistributionOf config scores) }

/-- Embeds `EvaluationOrchestrator._calculate_metrics` from
src/rems/evaluators/orchestrator.py (averaging part): unlike the core
aggregator, the four metric lists are filtered with `is not None`, so a
present 0.0 contributes to the average.  The orchestrator reads its
distribution cut points from global settings; they are passed here as the
same config record. -/
def calculateMetricsOrchestrator (config : EvaluationConfig)
    (results : List InteractionResult) : EvaluationResult :=
  if results.isEmpty then {} else
  let ctx_prec := someVals (results.map (·.context_precision))
  let ctx_rel := someVals (results.map (·.context_relevancy))
  let faith := someVals (results.map (·.faithfulness))
  let ans_rel := someVals (results.map (·.answer_relevancy))
  let total_hallucinations := (results.filter (·.has_hallucination)).length
  let hallucination_rate : ℚ := (total_hallucinations : ℚ) / (results.length : ℚ)
  let scores := someVals (results.map (·.overall_score))
  { avg_context_precision := listAvg ctx_prec
    avg_context_relevancy := listAvg ctx_rel
    avg_faithfulness := listAvg faith
    avg_answer_relevancy := listAvg ans_rel
    hallucination_rate := some hallucination_rate
    total_hallucinations := total_hallucinations
    score_distribution := some (scoreDistributionOf config scores) }

/-- Embeds `RAGEvaluator._calculate_retrieval_score` from
src/rems/core/evaluator.py. -/
def calculateRetrievalScore (metrics : EvaluationResult) : ℚ :=
  let scores := someVals [metrics.avg_context_precision, metrics.avg_context_relevancy]
  if scores.isEmpty then 0 else scores.sum / scores.length

/-- Embeds `RAGEvaluator._calculate_generation_score` from
src/rems/core/evaluator.py. -/
def calculateGenerationScore (metrics : EvaluationResult) : ℚ :=
  let scores := someVals [metrics.avg_faithfulness, metrics.avg_answer_relevancy]
  if scores.isEmpty then 0 else scores.sum / scores.length

/-- Embeds `RAGEvaluator._get_quality_level` from src/rems/core/evaluator.py. -/
def getQualityLevel (config : EvaluationConfig) (score : ℚ) : QualityLevel :=
  if config.excellent_threshold ≤ score then .excellent
  else if config.good_threshold ≤ score then .good
  else if config.acceptable_threshold ≤ score then .acceptable
  else if config.poor_threshold ≤ score then .poor
  else .critical

/-- Embeds the `DIAGNOSTIC_RULES` table of src/rems/core/diagnostic.py as an
association list from rule key to (component, probable causes). -/
def diagnosticRules : List (String × String × List String) :=
  [ ("low_context_precision",
      ("retriever",
        ["Similarity threshold too low (irrelevant documents included)",
         "Top-K too high (too many documents retrieved)",
         "Embedding quality insufficient for the domain"])),
    ("low_context_relevancy",
      ("retriever",
        ["Query poorly formulated or too vague",
         "Chunking strategy inadequate (chunks too large or too small)",
         "Embeddings not optimized for domain vocabulary"])),
    ("low_faithfulness",
      ("generator",
        ["LLM temperature too high (generation too creative)",
         "System prompt not constraining enough",
         "Insufficient context provided (top-K too low)",
         "Missing explicit instruction not to invent information"])),
    ("low_answer_relevancy",
      ("generator",
        ["Prompt not guiding towards direct answers",
         "LLM too verbose or off-topic",
         "Poor understanding of the question by the LLM"])),
    ("high_hallucination_rate",
      ("generator",
        ["Missing guardrails in system prompt",
         "LLM temperature too high",
         "Insufficient context to answer (retriever failing)",
         "LLM not well-suited for the domain"])) ]

/-- Lookup `DIAGNOSTIC_RULES[rule_key]`.  Every call site in diagnose passes a
key present in the table, so the KeyError branch of the Python subscription is
unreachable; the default pair models that dead branch. -/
def diagnosticRule (key : String) : String × List String :=
  ((diagnosticRules.find? (fun r => r.1 == key)).map (·.2)).getD ("", [])

/-- Embeds the deviation computation of `_create_issue` in
src/rems/core/diagnostic.py: the relative deviation from the threshold, with
the fallback branch taken whenever the Python test `threshold > 0` fails. -/
def issueDeviation (metric_value threshold : ℚ) (is_upper : Bool) : ℚ :=
  if is_upper then
    (if 0 < threshold then (metric_value - threshold) / threshold else metric_value)
  else
    (if 0 < threshold then (threshold - metric_value) / threshold else 1 - metric_value)

/-- Embeds the severity cut points of `_create_issue` in
src/rems/core/diagnostic.py. -/
def severityOfDeviation (d : ℚ) : Severity :=
  if 1/2 < d then .critical
  else if 1/4 < d then .high
  else if 1/10 < d then .medium
  else .low

/-- Embeds `_create_issue` from src/rems/core/diagnostic.py.  The numeric
interpolation of the symptom string (value and threshold rendered as percents)
is elided: no claim depends on the rendered numbers. -/
def createIssue (rule_key metric_name : String) (metric_value threshold : ℚ)
    (is_upper : Bool) : DiagnosedIssue :=
  let rule := diagnosticRule rule_key
  let deviation := issueDeviation metric_value threshold is_upper
  let severity := severityOfDeviation deviation
  let symptom :=
    if is_upper then metric_name ++ " too high" else metric_name ++ " too low"
  { component := rule.1
    symptom := symptom
    probable_causes := rule.2
    severity := severity
    metric_name := metric_name
    metric_value := metric_value
    threshold := threshold }

/-- Embeds one lower-bound check block of `diagnose` in
src/rems/core/diagnostic.py: if the aggregate is non-null and strictly below
the threshold, append one issue, else nothing. -/
def emitLower (v : Option ℚ) (t : ℚ) (rule_key metric_name : String) :
    List DiagnosedIssue :=
  match v with
  | some x => if x < t then [createIssue rule_key metric_name x t false] else []
  | none => []

/-- Embeds the upper-bound check block of `diagnose` in
src/rems/core/diagnostic.py: if the aggregate is non-null and strictly above
the threshold, append one issue, else nothing. -/
def emitUpper (v : Option ℚ) (t : ℚ) (rule_key metric_name : String) :
    List DiagnosedIssue :=
  match v with
  | some x => if t < x then [createIssue rule_key metric_name x t true] else []
  | none => []

/-- Embeds the emission phase of `diagnose` in src/rems/core/diagnostic.py:
the five guarded appends, in source order (context_precision,
context_relevancy, faithfulness, answer_relevancy, hallucination_rate), each
with its literal rule key, metric name and configured threshold. -/
def emitIssues (metrics : EvaluationResult) (config : EvaluationConfig) :
    List DiagnosedIssue :=
  emitLower metrics.avg_context_precision config.context_precision_threshold
    "low_context_precision" "context_precision" ++
  emitLower metrics.avg_context_relevancy config.context_relevancy_threshold
    "low_context_relevancy" "context_relevancy" ++
  emitLower metrics.avg_faithfulness config.faithfulness_threshold
    "low_faithfulness" "faithfulness" ++
  emitLower metrics.avg_answer_relevancy config.answer_relevancy_threshold
    "low_answer_relevancy" "answer_relevancy" ++
  emitUpper metrics.hallucination_rate config.hallucination_rate_threshold
    "high_hallucination_rate" "hallucination_rate"

/-- Rank used by the `severity_order` dict in `diagnose`
(src/rems/core/diagnostic.py lines 126-131). -/
def severityRank : Severity → ℕ
  | .critical => 0
  | .high => 1
  | .medium => 2
  | .low => 3

/-- Embeds `issues.sort(key=lambda x: severity_order[x.severity])`.  Python
list.sort is a stable sort; a stable sort by a four-valued key is
extensionally the concatenation of the key-equal sublists in key order. -/
def sortBySeverity (issues : List DiagnosedIssue) : List DiagnosedIssue :=
  issues.filter (fun i => i.severity == Severity.critical) ++
  issues.filter (fun i => i.severity == Severity.high) ++
  issues.filter (fun i => i.severity == Severity.medium) ++
  issues.filter (fun i => i.severity == Severity.low)

/-- Embeds `diagnose` from src/rems/core/diagnostic.py (the optional config
defaulting of the Python signature is applied at call sites). -/
def diagnose (metrics : EvaluationResult) (config : EvaluationConfig) :
    List DiagnosedIssue :=
  sortBySeverity (emitIssues metrics config)

/-- Value of one rule of the `RECOMMENDATION_RULES` table in
src/rems/core/recommendations.py. -/
structure RecommendationRule where
  suggestion : String
  parameter_adjustments : List ParamAdjustment
deriving DecidableEq, Repr

/-- Embeds the `RECOMMENDATION_RULES` table of
src/rems/core/recommendations.py as an association list; suggested values are
rendered as strings, and the long append-to-system-prompt texts are kept
verbatim apart from quotes. -/
def recommendationRules : List (String × RecommendationRule) :=
  [ ("low_context_precision",
      { suggestion :=
          "Reduce the number of retrieved documents (top_k) " ++
          "or increase the similarity threshold"
        parameter_adjustments :=
          [ { param := "retriever.top_k", action := "decrease",
              suggested_value := "3" },
            { param := "retriever.similarity_threshold", action := "increase",
              suggested_value := "0.75" } ] }),
    ("low_context_relevancy",
      { suggestion := "Optimize document chunking or improve embeddings quality"
        parameter_adjustments :=
          [ { param := "indexing.chunk_size", action := "adjust",
              suggested_value := "512" },
            { param := "indexing.chunk_overlap", action := "adjust",
              suggested_value := "50" } ] }),
    ("low_faithfulness",
      { suggestion :=
          "Add explicit instructions in the prompt to cite sources " ++
          "and not invent information"
        parameter_adjustments :=
          [ { param := "generator.temperature", action := "decrease",
              suggested_value := "0.3" },
            { param := "generator.system_prompt", action := "append",
              suggested_value :=
                "IMPORTANT: Base your answer ONLY on the provided documents. " ++
                "If the information is not in the documents, say so explicitly. " ++
                "Never invent information." } ] }),
    ("low_answer_relevancy",
      { suggestion :=
          "Improve the prompt to guide towards more direct and relevant answers"
        parameter_adjustments :=
          [ { param := "generator.system_prompt", action := "append",
              suggested_value :=
                "Answer concisely and directly to the question asked. " ++
                "Avoid digressions." } ] }),
    ("high_hallucination_rate",
      { suggestion := "Reduce LLM temperature and strengthen prompt guardrails"
        parameter_adjustments :=
          [ { param := "generator.temperature", action := "decrease",
              suggested_value := "0.2" },
            { param := "generator.max_tokens", action := "decrease",
              suggested_value := "1024" },
            { param := "generator.system_prompt", action := "append",
              suggested_value :=
                "ABSOLUTE RULE: You must NEVER invent facts, dates, or references. " ++
                "If you do not have the exact information in the context, " ++
                "respond that you do not have this information in the provided documents." } ] }) ]

/-- Embeds `RECOMMENDATION_RULES.get(rule_key, \x7b\x7d)`: `none` models the
empty default dict. -/
def recommendationRule (key : String) : Option RecommendationRule :=
  (recommendationRules.find? (fun r => r.1 == key)).map (·.2)

/-- Embeds `_get_rule_key` from src/rems/core/recommendations.py. -/
def getRuleKey (metric_name : String) (threshold value : ℚ) : String :=
  if metric_name == "hallucination_rate" then
    (if threshold < value then "high_hallucination_rate" else "")
  else
    (if value < threshold then "low_" ++ metric_name else "")

/-- Embeds `_issue_to_recommendation` from src/rems/core/recommendations.py:
with `rule = none` both `rule.get` calls take their defaults, yielding the
generic suggestion and null parameter adjustments. -/
def issueToRecommendation (issue : DiagnosedIssue) : Recommendation :=
  let rule_key := getRuleKey issue.metric_name issue.threshold issue.metric_value
  let rule := recommendationRule rule_key
  let suggestion :=
    match rule with
    | some r => r.suggestion
    | none => "Investigate the " ++ issue.metric_name ++ " issue"
  let causes_text :=
    String.intercalate "\n"
      ((issue.probable_causes.take 3).map (fun c => "  - " ++ c))
  let full_issue := issue.symptom ++ "\n\nProbable causes:\n" ++ causes_text
  { component := issue.component
    issue := full_issue
    suggestion := suggestion
    priority := issue.severity.value
    parameter_adjustments := rule.map (·.parameter_adjustments) }

/-- Embeds `generate_recommendations` from src/rems/core/recommendations.py
(the empty-list early return, then one recommendation appended per issue in
order). -/
def generateRecommendations (issues : List DiagnosedIssue) :
    List Recommendation :=
  if issues.isEmpty then [] else issues.map issueToRecommendation

/-- Models one row of the RAGAS result dataframe consumed by
`MetricsEvaluator.evaluate_interactions` in src/rems/core/metrics.py: the
three scores the external judge computes, each independently nullable.
Context relevancy is not among them. -/
structure RagasRow where
  context_precision : Option ℚ := none
  faithfulness : Option ℚ := none
  answer_relevancy : Option ℚ := none
deriving DecidableEq, Repr

/-- Embeds `MetricsEvaluator.evaluate_interactions` from
src/rems/core/metrics.py.  The external RAGAS call is an oracle mapping the
row index to its three scores; the conversion loop (truthiness-filtered
overall score, hallucination flag, construction of InteractionResult without
context_relevancy) follows the source. -/
def evaluateInteractions (config : EvaluationConfig) (oracle : ℕ → RagasRow)
    (interactions : List Interaction) : List InteractionResult :=
  if interactions.isEmpty then [] else
  interactions.enum.map (fun p =>
    let row := oracle p.1
    let scores := truthyVals [row.context_precision, row.faithfulness,
      row.answer_relevancy]
    let overall := if scores.isEmpty then none
      else some (scores.sum / (scores.length : ℚ))
    let hall := match row.faithfulness with
      | some f => decide (f < config.faithfulness_threshold)
      | none => false
    { interaction := p.2
      context_precision := row.context_precision
      faithfulness := row.faithfulness
      answer_relevancy := row.answer_relevancy
      overall_score := overall
      has_hallucination := hall })

/-- Embeds `EvaluationResults` from src/rems/core/schemas.py (the run
summary; evaluation_id and evaluation_date are elided: no claim depends on
them). -/
structure EvaluationResults where
  overall_score : ℚ
  retrieval_score : ℚ
  generation_score : ℚ
  quality_level : QualityLevel
  interaction_count : ℕ
  metrics : EvaluationResult
  interaction_results : List InteractionResult
  issues : List DiagnosedIssue
  recommendations : List Recommendation
deriving DecidableEq, Repr

/-- Embeds `RAGEvaluator.evaluate` from src/rems/core/evaluator.py on
already-typed interactions: the empty-input guard raises ValueError before
any scoring; otherwise the pipeline runs scorer, aggregator, composer,
diagnostics and recommendations. -/
def evaluate (config : EvaluationConfig) (oracle : ℕ → RagasRow)
    (interactions : List Interaction) : Except String EvaluationResults :=
  if interactions.isEmpty then
    Except.error "No interactions provided for evaluation"
  else
    let interaction_results := evaluateInteractions config oracle interactions
    let metrics := aggregateMetrics config interaction_results
    let retrieval_score := calculateRetrievalScore metrics
    let generation_score := calculateGenerationScore metrics
    let overall_score := config.retrieval_weight * retrieval_score +
      config.generation_weight * generation_score
    let quality_level := getQualityLevel config overall_score
    let issues := diagnose metrics config
    let recommendations := generateRecommendations issues
    Except.ok
      { overall_score := overall_score
        retrieval_score := retrieval_score
        generation_score := generation_score
        quality_level := quality_level
        interaction_count := interactions.length
        metrics := metrics
        interaction_results := interaction_results
        issues := issues
        recommendations := recommendations }

/-- Written from the spec wording of the score composer (claim C4): the mean
of whichever of the two aggregate fields are non-null, 0.0 if both are null.
Kept separate from the source-derived `calculateRetrievalScore` so the two can
be compared. -/
def specMeanPair (a b : Option ℚ) : ℚ :=
  match a, b with
  | none, none => 0
  | some x, none => x
  | none, some y => y
  | some x, some y => (x + y) / 2

/-- Written from the literal wording of claim C3: the relative deviation with
the fallback branch taken only when the threshold is exactly zero (the source
takes it whenever the Python test `threshold > 0` fails). -/
def claimDeviation (metric_value threshold : ℚ) (is_upper : Bool) : ℚ :=
  if is_upper then
    (if threshold = 0 then metric_value else (metric_value - threshold) / threshold)
  else
    (if threshold = 0 then 1 - metric_value else (threshold - metric_value) / threshold)

/-- Written from the spec wording of the diagnostic engine (claim C2): a
lower-bound aggregate breaches when it is non-null and strictly below its
threshold. -/
def breachesLower (v : Option ℚ) (t : ℚ) : Bool :=
  match v with
  | some x => decide (x < t)
  | none => false

/-- Written from the spec wording of the diagnostic engine (claim C2): the
upper-bound aggregate breaches when it is non-null and strictly above its
threshold. -/
def breachesUpper (v : Option ℚ) (t : ℚ) : Bool :=
  match v with
  | some x => decide (t < x)
  | none => false

/-! ## Helper lemmas -/

/-- The stable four-bucket sort is a permutation of its input. -/
theorem sortBySeverity_perm (l : List DiagnosedIssue) :
    (sortBySeverity l).Perm l := by
  have ehigh :
      List.filter (fun i => i.severity == Severity.high)
        (List.filter (fun i => !(i.severity == Severity.critical)) l) =
      List.filter (fun i => i.severity == Severity.high) l := by
    rw [List.filter_filter]
    congr 1
    funext i
    cases i.severity <;> rfl
  have emed :
      List.filter (fun i => i.severity == Severity.medium)
        (List.filter (fun i => !(i.severity == Severity.high))
          (List.filter (fun i => !(i.severity == Severity.critical)) l)) =
      List.filter (fun i => i.severity == Severity.medium) l := by
    rw [List.filter_filter, List.filter_filter]
    congr 1
    funext i
    cases i.severity <;> rfl
  have elow :
      List.filter (fun i => !(i.severity == Severity.medium))
        (List.filter (fun i => !(i.severity == Severity.high))
          (List.filter (fun i => !(i.severity == Severity.critical)) l)) =
      List.filter (fun i => i.severity == Severity.low) l := by
    rw [List.filter_filter, List.filter_filter]
    congr 1
    funext i
    cases i.severity <;> rfl
  have h3 :
      (List.filter (fun i => i.severity == Severity.medium) l ++
        List.filter (fun i => i.severity == Severity.low) l).Perm
        (List.filter (fun i => !(i.severity == Severity.high))
          (List.filter (fun i => !(i.severity == Severity.critical)) l)) := by
    conv_lhs => rw [← emed, ← elow]
    exact List.filter_append_perm _ _
  have h2 :
      (List.filter (fun i => i.severity == Severity.high) l ++
        (List.filter (fun i => i.severity == Severity.medium) l ++
          List.filter (fun i => i.severity == Severity.low) l)).Perm
        (List.filter (fun i => !(i.severity == Severity.critical)) l) := by
    refine List.Perm.trans (List.Perm.append_left _ h3) ?_
    conv_lhs => rw [← ehigh]
    exact List.filter_append_perm _ _
  have h1 :
      (List.filter (fun i => i.severity == Severity.critical) l ++
        (List.filter (fun i => i.severity == Severity.high) l ++
          (List.filter (fun i => i.severity == Severity.medium) l ++
            List.filter (fun i => i.severity == Severity.low) l))).Perm l := by
    refine List.Perm.trans (List.Perm.append_left _ h2) ?_
    exact List.filter_append_perm _ _
  have : sortBySeverity l =
      List.filter (fun i => i.severity == Severity.critical) l ++
        (List.filter (fun i => i.severity == Severity.high) l ++
          (List.filter (fun i => i.severity == Severity.medium) l ++
            List.filter (fun i => i.severity == Severity.low) l)) := by
    simp [sortBySeverity, List.append_assoc]
  rw [this]
  exact h1

/-- Counting is invariant under the severity sort. -/
theorem countP_sortBySeverity (p : DiagnosedIssue → Bool)
    (l : List DiagnosedIssue) :
    (sortBySeverity l).countP p = l.countP p :=
  (sortBySeverity_perm l).countP_eq p

/-- Membership is invariant under the severity sort. -/
theorem mem_sortBySeverity {x : DiagnosedIssue} {l : List DiagnosedIssue} :
    x ∈ sortBySeverity l ↔ x ∈ l :=
  (sortBySeverity_perm l).mem_iff

/-- Every member of a lower-bound emission block is the created issue for a
present aggregate value. -/
theorem mem_emitLower {x : DiagnosedIssue} {v : Option ℚ} {t : ℚ}
    {k n : String} (h : x ∈ emitLower v t k n) :
    ∃ w, v = some w ∧ w < t ∧ x = createIssue k n w t false := by
  cases v with
  | none => simp [emitLower] at h
  | some w =>
    by_cases hw : w < t
    · simp [emitLower, hw] at h
      exact ⟨w, rfl, hw, h⟩
    · simp [emitLower, hw] at h

/-- Every member of the upper-bound emission block is the created issue for a
present aggregate value. -/
theorem mem_emitUpper {x : DiagnosedIssue} {v : Option ℚ} {t : ℚ}
    {k n : String} (h : x ∈ emitUpper v t k n) :
    ∃ w, v = some w ∧ t < w ∧ x = createIssue k n w t true := by
  cases v with
  | none => simp [emitUpper] at h
  | some w =>
    by_cases hw : t < w
    · simp [emitUpper, hw] at h
      exact ⟨w, rfl, hw, h⟩
    · simp [emitUpper, hw] at h

/-- Field computation lemma for createIssue. -/
theorem createIssue_fields (k n : String) (v t : ℚ) (u : Bool) :
    (createIssue k n v t u).metric_name = n ∧
    (createIssue k n v t u).metric_value = v ∧
    (createIssue k n v t u).threshold = t ∧
    (createIssue k n v t u).severity =
      severityOfDeviation (issueDeviation v t u) :=
  ⟨rfl, rfl, rfl, rfl⟩

/-- Counting the issues bearing the emitted metric name in a lower block. -/
theorem countP_emitLower_self (v : Option ℚ) (t : ℚ) (k n : String) :
    (emitLower v t k n).countP (fun i => i.metric_name == n) =
      (if breachesLower v t then 1 else 0) := by
  cases v with
  | none => rfl
  | some w =>
    by_cases hw : w < t <;>
      simp [emitLower, breachesLower, hw, List.countP_cons, createIssue]

/-- A lower block contributes no issue bearing a different metric name. -/
theorem countP_emitLower_ne (v : Option ℚ) (t : ℚ) (k n m : String)
    (h : n ≠ m) :
    (emitLower v t k n).countP (fun i => i.metric_name == m) = 0 := by
  cases v with
  | none => rfl
  | some w =>
    by_cases hw : w < t <;>
      simp [emitLower, hw, List.countP_cons, createIssue, h]

/-- Counting the issues bearing the emitted metric name in the upper block. -/
theorem countP_emitUpper_self (v : Option ℚ) (t : ℚ) (k n : String) :
    (emitUpper v t k n).countP (fun i => i.metric_name == n) =
      (if breachesUpper v t then 1 else 0) := by
  cases v with
  | none => rfl
  | some w =>
    by_cases hw : t < w <;>
      simp [emitUpper, breachesUpper, hw, List.countP_cons, createIssue]

/-- The upper block contributes no issue bearing a different metric name. -/
theorem countP_emitUpper_ne (v : Option ℚ) (t : ℚ) (k n m : String)
    (h : n ≠ m) :
    (emitUpper v t k n).countP (fun i => i.metric_name == m) = 0 := by
  cases v with
  | none => rfl
  | some w =>
    by_cases hw : t < w <;>
      simp [emitUpper, hw, List.countP_cons, createIssue, h]

/-! ## Claim theorems -/

/-- Claim C1.  The claim states that the aggregator averages exactly the
non-null values of each metric, and in particular that a present 0.0 is
included.  Evaluating the embedded code on a single result whose
context_precision is 0.0: `RAGEvaluator._aggregate_metrics` (truthiness
filter `if r.context_precision`) drops the value and yields a null average,
while the orchestrator's `_calculate_metrics` (`is not None` filter) includes
it and yields an average of 0.0.  The core aggregator therefore contradicts
the claim at this input. -/
theorem c1_aggregator_drops_present_zero :
    (aggregateMetrics {}
      [{ interaction := ⟨"q", "r", []⟩,
         context_precision := some 0 }]).avg_context_precision = none ∧
    (calculateMetricsOrchestrator {}
      [{ interaction := ⟨"q", "r", []⟩,
         context_precision := some 0 }]).avg_context_precision = some 0 := by
  constructor
  · simp [aggregateMetrics, truthyVals, listAvg]
  · simp [calculateMetricsOrchestrator, someVals, listAvg]

/-- Claim C8, counterexample to the claim as stated: the aggregation step,
given zero results, does not fail with `EmptyInputError` (no such error
exists anywhere in the code); the Python body has no raise statement and
returns the default `EvaluationResult`, which the total embedded function
exhibits. -/
theorem c8_counterexample :
    aggregateMetrics {} ([] : List InteractionResult) =
      ({} : EvaluationResult) := rfl

/-- Claim C8 as amended: given zero interactions the pipeline entry point
`RAGEvaluator.evaluate` raises immediately (ValueError, before any scoring is
attempted), and the aggregation step, given zero results, returns an empty
default `EvaluationResult` rather than raising. -/
theorem c8_amended (cfg : EvaluationConfig) (oracle : ℕ → RagasRow) :
    evaluate cfg oracle [] =
      Except.error "No interactions provided for evaluation" ∧
    aggregateMetrics cfg [] = ({} : EvaluationResult) :=
  ⟨rfl, rfl⟩

/-- Claim C6: `generate_recommendations` returns exactly one recommendation
per input issue in the same order, with priority equal to the issue severity
value and component copied from the issue; severity values are pairwise
distinct, so reading back the priority reproduces the severity exactly. -/
theorem c6_recommendations_roundtrip (issues : List DiagnosedIssue) :
    List.Forall₂ (fun (i : DiagnosedIssue) (r : Recommendation) =>
      r.priority = i.severity.value ∧ r.component = i.component)
      issues (generateRecommendations issues) ∧
    ∀ s t : Severity, s.value = t.value → s = t := by
  constructor
  · unfold generateRecommendations
    by_cases h : issues.isEmpty
    · rw [if_pos h]
      cases issues with
      | nil => exact List.Forall₂.nil
      | cons a l => simp at h
    · rw [if_neg h, List.forall₂_map_right_iff, List.forall₂_same]
      intro x _
      exact ⟨rfl, rfl⟩
  · intro s t h
    cases s <;> cases t <;> first | rfl | (exfalso; simp [Severity.value] at h)

/-- Witness for claim C6: the theorem applied to a concrete issue list, and
the round-trip injectivity hypothesis discharged at a concrete priority
string. -/
theorem c6_witness :
    List.Forall₂ (fun (i : DiagnosedIssue) (r : Recommendation) =>
      r.priority = i.severity.value ∧ r.component = i.component)
      [⟨"retriever", "s", [], Severity.low, "context_precision", 0, 1⟩]
      (generateRecommendations
        [⟨"retriever", "s", [], Severity.low, "context_precision", 0, 1⟩]) ∧
    Severity.high = Severity.high :=
  ⟨(c6_recommendations_roundtrip _).1,
   (c6_recommendations_roundtrip []).2 Severity.high Severity.high rfl⟩

/-- Claim C7: the recommendation rule key is derived from the metric name and
the comparison direction, and an unmapped key never fails and never drops the
issue: the engine still produces one recommendation per issue, with the
generic suggestion text and null parameter adjustments. -/
theorem c7_unmapped_rule_degrades (issue : DiagnosedIssue)
    (h : recommendationRule
      (getRuleKey issue.metric_name issue.threshold issue.metric_value) =
        none) :
    (issueToRecommendation issue).suggestion =
      "Investigate the " ++ issue.metric_name ++ " issue" ∧
    (issueToRecommendation issue).parameter_adjustments = none ∧
    ∀ l : List DiagnosedIssue,
      (generateRecommendations l).length = l.length := by
  refine ⟨?_, ?_, ?_⟩
  · simp only [issueToRecommendation, h]
  · simp only [issueToRecommendation, h]
    rfl
  · intro l
    by_cases hl : l.isEmpty
    · cases l with
      | nil => rfl
      | cons a t => simp at hl
    · simp [generateRecommendations, hl]

/-- Witness for claim C7: a concrete issue whose metric name has no rule
entry (key low_custom_metric) degrades to the generic suggestion. -/
theorem c7_witness :
    (issueToRecommendation
      ⟨"c", "s", [], Severity.low, "custom_metric", 0, 1⟩).suggestion =
      "Investigate the " ++ "custom_metric" ++ " issue" ∧
    (issueToRecommendation
      ⟨"c", "s", [], Severity.low, "custom_metric", 0, 1⟩).parameter_adjustments
      = none ∧
    ∀ l : List DiagnosedIssue,
      (generateRecommendations l).length = l.length :=
  c7_unmapped_rule_degrades
    ⟨"c", "s", [], Severity.low, "custom_metric", 0, 1⟩ (by decide)

/-- Claim C2: for every aggregated result and configuration, `diagnose`
emits exactly one issue for a monitored metric if and only if that metric's
aggregate is non-null and strictly breaches its threshold (strictly below for
the four lower-bound metrics, strictly above for hallucination_rate); an
aggregate exactly at its threshold or null produces no issue. -/
theorem c2_one_issue_iff_strict_breach (m : EvaluationResult)
    (cfg : EvaluationConfig) :
    (diagnose m cfg).countP (fun i => i.metric_name == "context_precision") =
      (if breachesLower m.avg_context_precision
          cfg.context_precision_threshold then 1 else 0) ∧
    (diagnose m cfg).countP (fun i => i.metric_name == "context_relevancy") =
      (if breachesLower m.avg_context_relevancy
          cfg.context_relevancy_threshold then 1 else 0) ∧
    (diagnose m cfg).countP (fun i => i.metric_name == "faithfulness") =
      (if breachesLower m.avg_faithfulness
          cfg.faithfulness_threshold then 1 else 0) ∧
    (diagnose m cfg).countP (fun i => i.metric_name == "answer_relevancy") =
      (if breachesLower m.avg_answer_relevancy
          cfg.answer_relevancy_threshold then 1 else 0) ∧
    (diagnose m cfg).countP (fun i => i.metric_name == "hallucination_rate") =
      (if breachesUpper m.hallucination_rate
          cfg.hallucination_rate_threshold then 1 else 0) := by
  have base : ∀ p : DiagnosedIssue → Bool,
      (diagnose m cfg).countP p =
        (emitLower m.avg_context_precision cfg.context_precision_threshold
          "low_context_precision" "context_precision").countP p +
        (emitLower m.avg_context_relevancy cfg.context_relevancy_threshold
          "low_context_relevancy" "context_relevancy").countP p +
        (emitLower m.avg_faithfulness cfg.faithfulness_threshold
          "low_faithfulness" "faithfulness").countP p +
        (emitLower m.avg_answer_relevancy cfg.answer_relevancy_threshold
          "low_answer_relevancy" "answer_relevancy").countP p +
        (emitUpper m.hallucination_rate cfg.hallucination_rate_threshold
          "high_hallucination_rate" "hallucination_rate").countP p := by
    intro p
    unfold diagnose
    rw [countP_sortBySeverity]
    unfold emitIssues
    simp [List.countP_append]
    omega
  refine ⟨?_, ?_, ?_, ?_, ?_⟩
  · rw [base, countP_emitLower_self,
      countP_emitLower_ne _ _ _ _ _ (by decide),
      countP_emitLower_ne _ _ _ _ _ (by decide),
      countP_emitLower_ne _ _ _ _ _ (by decide),
      countP_emitUpper_ne _ _ _ _ _ (by decide)]
    omega
  · rw [base, countP_emitLower_self,
      countP_emitLower_ne _ _ _ _ _ (by decide),
      countP_emitLower_ne _ _ _ _ _ (by decide),
      countP_emitLower_ne _ _ _ _ _ (by decide),
      countP_emitUpper_ne _ _ _ _ _ (by decide)]
    omega
  · rw [base, countP_emitLower_self,
      countP_emitLower_ne _ _ _ _ _ (by decide),
      countP_emitLower_ne _ _ _ _ _ (by decide),
      countP_emitLower_ne _ _ _ _ _ (by decide),
      countP_emitUpper_ne _ _ _ _ _ (by decide)]
    omega
  · rw [base, countP_emitLower_self,
      countP_emitLower_ne _ _ _ _ _ (by decide),
      countP_emitLower_ne _ _ _ _ _ (by decide),
      countP_emitLower_ne _ _ _ _ _ (by decide),
      countP_emitUpper_ne _ _ _ _ _ (by decide)]
    omega
  · rw [base, countP_emitUpper_self,
      countP_emitLower_ne _ _ _ _ _ (by decide),
      countP_emitLower_ne _ _ _ _ _ (by decide),
      countP_emitLower_ne _ _ _ _ _ (by decide),
      countP_emitLower_ne _ _ _ _ _ (by decide)]
    omega

/-- The severity sort output is ascending in severity rank. -/
theorem sortBySeverity_pairwise (l : List DiagnosedIssue) :
    (sortBySeverity l).Pairwise
      (fun a b => severityRank a.severity ≤ severityRank b.severity) := by
  have hmem : ∀ (s : Severity) (x : DiagnosedIssue),
      x ∈ l.filter (fun i => i.severity == s) → x.severity = s := by
    intro s x hx
    exact eq_of_beq (List.mem_filter.mp hx).2
  have hpw : ∀ s : Severity,
      (l.filter (fun i => i.severity == s)).Pairwise
        (fun a b => severityRank a.severity ≤ severityRank b.severity) := by
    intro s
    apply List.pairwise_of_forall_mem_list
    intro a ha b hb
    rw [hmem s a ha, hmem s b hb]
  unfold sortBySeverity
  simp only [List.pairwise_append, List.mem_append]
  refine ⟨⟨⟨hpw _, hpw _, ?_⟩, hpw _, ?_⟩, hpw _, ?_⟩
  · intro a ha b hb
    rw [hmem _ _ ha, hmem _ _ hb]
    decide
  · intro a ha b hb
    rcases ha with ha | ha <;> rw [hmem _ _ ha, hmem _ _ hb] <;> decide
  · intro a ha b hb
    rcases ha with (ha | ha) | ha <;> rw [hmem _ _ ha, hmem _ _ hb] <;> decide

/-- Filtering a severity bucket out of another bucket keeps it when the
severities agree and empties it otherwise. -/
theorem filter_filter_severity (s t : Severity) (l : List DiagnosedIssue) :
    (l.filter (fun i => i.severity == t)).filter (fun i => i.severity == s) =
      (if s = t then l.filter (fun i => i.severity == s) else []) := by
  by_cases h : s = t
  · subst h
    rw [if_pos rfl, List.filter_filter]
    congr 1
    funext i
    exact Bool.and_self _
  · rw [if_neg h, List.filter_filter]
    rw [List.filter_eq_nil_iff]
    intro a _ hc
    rw [Bool.and_eq_true, beq_iff_eq, beq_iff_eq] at hc
    exact h (hc.1.symm.trans hc.2)

/-- Issues of a given severity appear in the sort output exactly as they
appear in the input, in the same relative order (stability). -/
theorem filter_sortBySeverity (s : Severity) (l : List DiagnosedIssue) :
    (sortBySeverity l).filter (fun i => i.severity == s) =
      l.filter (fun i => i.severity == s) := by
  unfold sortBySeverity
  simp only [List.filter_append, filter_filter_severity]
  cases s <;> simp

/-- The metric names of a lower emission block form a sublist of the
singleton of its metric name. -/
theorem map_name_emitLower (v : Option ℚ) (t : ℚ) (k n : String) :
    List.Sublist ((emitLower v t k n).map (fun i => i.metric_name)) [n] := by
  cases v with
  | none => exact List.nil_sublist _
  | some w =>
    by_cases hw : w < t
    · have h : (emitLower (some w) t k n).map (fun i => i.metric_name) = [n] := by
        simp [emitLower, hw, createIssue]
      rw [h]
    · have h : emitLower (some w) t k n = [] := by simp [emitLower, hw]
      rw [h]
      exact List.nil_sublist _

/-- The metric names of the upper emission block form a sublist of the
singleton of its metric name. -/
theorem map_name_emitUpper (v : Option ℚ) (t : ℚ) (k n : String) :
    List.Sublist ((emitUpper v t k n).map (fun i => i.metric_name)) [n] := by
  cases v with
  | none => exact List.nil_sublist _
  | some w =>
    by_cases hw : t < w
    · have h : (emitUpper (some w) t k n).map (fun i => i.metric_name) = [n] := by
        simp [emitUpper, hw, createIssue]
      rw [h]
    · have h : emitUpper (some w) t k n = [] := by simp [emitUpper, hw]
      rw [h]
      exact List.nil_sublist _

/-- Claim C9: `diagnose` returns its issues sorted ascending by severity rank
(critical < high < medium < low); ties keep the emission order, and the
emission order follows the fixed metric sequence context_precision,
context_relevancy, faithfulness, answer_relevancy, hallucination_rate. -/
theorem c9_diagnose_sorted (m : EvaluationResult) (cfg : EvaluationConfig) :
    (diagnose m cfg).Pairwise
      (fun a b => severityRank a.severity ≤ severityRank b.severity) ∧
    (∀ s : Severity,
      (diagnose m cfg).filter (fun i => i.severity == s) =
        (emitIssues m cfg).filter (fun i => i.severity == s)) ∧
    List.Sublist ((emitIssues m cfg).map (fun i => i.metric_name))
      ["context_precision", "context_relevancy", "faithfulness",
       "answer_relevancy", "hallucination_rate"] := by
  refine ⟨sortBySeverity_pairwise _, fun s => filter_sortBySeverity s _, ?_⟩
  unfold emitIssues
  simp only [List.map_append]
  have h5 : (["context_precision", "context_relevancy", "faithfulness",
      "answer_relevancy", "hallucination_rate"] : List String) =
      ((((["context_precision"] ++ ["context_relevancy"]) ++
        ["faithfulness"]) ++ ["answer_relevancy"]) ++
        ["hallucination_rate"]) := rfl
  rw [h5]
  exact ((((map_name_emitLower _ _ _ _).append
    (map_name_emitLower _ _ _ _)).append
    (map_name_emitLower _ _ _ _)).append
    (map_name_emitLower _ _ _ _)).append
    (map_name_emitUpper _ _ _ _)

/-- If no result carries a context_relevancy score, the aggregate is null. -/
theorem avg_context_relevancy_none (cfg : EvaluationConfig)
    (results : List InteractionResult)
    (h : ∀ r ∈ results, r.context_relevancy = none) :
    (aggregateMetrics cfg results).avg_context_relevancy = none := by
  unfold aggregateMetrics
  by_cases he : results.isEmpty
  · rw [if_pos he]
  · rw [if_neg he]
    show listAvg (truthyVals (results.map (fun r => r.context_relevancy))) = none
    have hnil : truthyVals (results.map (fun r => r.context_relevancy)) = [] := by
      rw [truthyVals, List.filterMap_eq_nil_iff]
      intro a ha
      rw [List.mem_map] at ha
      obtain ⟨r, hr, rfl⟩ := ha
      rw [h r hr]
      rfl
    rw [hnil]
    rfl

/-- A null context_relevancy aggregate never produces a context_relevancy
issue. -/
theorem no_relevancy_issue (m : EvaluationResult) (cfg : EvaluationConfig)
    (hm : m.avg_context_relevancy = none) :
    ∀ i ∈ diagnose m cfg, i.metric_name ≠ "context_relevancy" := by
  intro i hi
  have hi' := mem_sortBySeverity.mp hi
  unfold emitIssues at hi'
  simp only [List.mem_append] at hi'
  rcases hi' with ((((h1 | h2) | h3) | h4) | h5)
  · obtain ⟨w, _, _, rfl⟩ := mem_emitLower h1
    simp [createIssue]
  · rw [hm] at h2
    simp [emitLower] at h2
  · obtain ⟨w, _, _, rfl⟩ := mem_emitLower h3
    simp [createIssue]
  · obtain ⟨w, _, _, rfl⟩ := mem_emitLower h4
    simp [createIssue]
  · obtain ⟨w, _, _, rfl⟩ := mem_emitUpper h5
    simp [createIssue]

/-- With a null context_relevancy aggregate, the retrieval score degenerates
to the context_precision aggregate (or 0.0 when that too is null). -/
theorem retrievalScore_of_none_relevancy (m : EvaluationResult)
    (hm : m.avg_context_relevancy = none) :
    calculateRetrievalScore m = m.avg_context_precision.getD 0 := by
  unfold calculateRetrievalScore
  rw [hm]
  cases hp : m.avg_context_precision with
  | none => rfl
  | some x => simp [someVals]

/-- Claim C10: the core scorer never produces a context_relevancy score
(RAGAS computes only context precision, faithfulness, answer relevancy), so
through the whole pipeline avg_context_relevancy is null, no
low_context_relevancy issue is ever emitted, and the retrieval score equals
the context_precision aggregate alone (0.0 when that too is null). -/
theorem c10_context_relevancy_always_null (cfg : EvaluationConfig)
    (oracle : ℕ → RagasRow) (ints : List Interaction) :
    (∀ r ∈ evaluateInteractions cfg oracle ints,
      r.context_relevancy = none) ∧
    (aggregateMetrics cfg
      (evaluateInteractions cfg oracle ints)).avg_context_relevancy = none ∧
    (∀ i ∈ diagnose
        (aggregateMetrics cfg (evaluateInteractions cfg oracle ints)) cfg,
      i.metric_name ≠ "context_relevancy") ∧
    calculateRetrievalScore
        (aggregateMetrics cfg (evaluateInteractions cfg oracle ints)) =
      ((aggregateMetrics cfg
        (evaluateInteractions cfg oracle ints)).avg_context_precision).getD
          0 := by
  have h1 : ∀ r ∈ evaluateInteractions cfg oracle ints,
      r.context_relevancy = none := by
    intro r hr
    unfold evaluateInteractions at hr
    by_cases he : ints.isEmpty
    · rw [if_pos he] at hr
      simp at hr
    · rw [if_neg he] at hr
      rw [List.mem_map] at hr
      obtain ⟨p, _, rfl⟩ := hr
      rfl
  exact ⟨h1, avg_context_relevancy_none _ _ h1,
    no_relevancy_issue _ _ (avg_context_relevancy_none _ _ h1),
    retrievalScore_of_none_relevancy _ (avg_context_relevancy_none _ _ h1)⟩

/-- Claim C3, counterexample to the claim as stated: with a negative
threshold (representable, since config thresholds are arbitrary floats) the
code takes the fallback branch whenever the Python test `threshold > 0`
fails, not only when `threshold == 0` as the claim says.  At
avg_context_precision = -2 with threshold -1 the emitted issue is critical
(deviation 1 - (-2) = 3), while the deviation formula of the claim gives
(-1 - (-2)) / (-1) = -1, i.e. severity low. -/
theorem c3_counterexample :
    ((diagnose { avg_context_precision := some (-2) }
        { context_precision_threshold := -1 }).map (fun i => i.severity) =
      [Severity.critical]) ∧
    severityOfDeviation (claimDeviation (-2) (-1) false) = Severity.low := by
  constructor
  · norm_num [diagnose, emitIssues, emitLower, emitUpper, sortBySeverity,
      createIssue, issueDeviation, severityOfDeviation]
    decide
  · norm_num [claimDeviation, severityOfDeviation]

/-- Claim C3 as amended: every emitted issue's severity equals the fixed cut
point mapping (deviation > 0.5 critical, > 0.25 high, > 0.1 medium, else
low) of the relative deviation, where the fallback form (1 - value for
lower-bound metrics, value itself for the upper-bound metric) applies
whenever threshold > 0 fails — i.e. for all threshold ≤ 0, not only
threshold == 0; and the severity mapping is monotonic: a larger deviation
never yields a lower severity. -/
theorem c3_amended (m : EvaluationResult) (cfg : EvaluationConfig) :
    (∀ i ∈ diagnose m cfg,
      i.severity = severityOfDeviation
        (issueDeviation i.metric_value i.threshold
          (i.metric_name == "hallucination_rate"))) ∧
    ∀ d e : ℚ, d ≤ e →
      severityRank (severityOfDeviation e) ≤
        severityRank (severityOfDeviation d) := by
  constructor
  · intro i hi
    have hi' := mem_sortBySeverity.mp hi
    unfold emitIssues at hi'
    simp only [List.mem_append] at hi'
    rcases hi' with ((((h1 | h2) | h3) | h4) | h5)
    · obtain ⟨w, _, _, rfl⟩ := mem_emitLower h1
      simp [createIssue]
    · obtain ⟨w, _, _, rfl⟩ := mem_emitLower h2
      simp [createIssue]
    · obtain ⟨w, _, _, rfl⟩ := mem_emitLower h3
      simp [createIssue]
    · obtain ⟨w, _, _, rfl⟩ := mem_emitLower h4
      simp [createIssue]
    · obtain ⟨w, _, _, rfl⟩ := mem_emitUpper h5
      simp [createIssue]
  · intro d e h
    unfold severityOfDeviation
    split_ifs <;> simp [severityRank] <;> linarith

/-- Witness for claim C3 (amended): the severity formula instance for the
concrete issue emitted at avg_context_precision = -1 with threshold 0, with
its membership hypothesis discharged, and the monotonicity hypothesis
discharged at the concrete deviations 0 ≤ 1. -/
theorem c3_witness :
    severityOfDeviation (issueDeviation (-1) 0 false) =
      severityOfDeviation (issueDeviation (-1) 0
        (("context_precision" : String) == "hallucination_rate")) ∧
    severityRank (severityOfDeviation 1) ≤ severityRank (severityOfDeviation 0) :=
  ⟨(c3_amended { avg_context_precision := some (-1) }
      { context_precision_threshold := 0 }).1
    (createIssue "low_context_precision" "context_precision" (-1) 0 false)
    (by norm_num [diagnose, emitIssues, emitLower, emitUpper, sortBySeverity,
      createIssue, issueDeviation, severityOfDeviation]),
   (c3_amended {} {}).2 0 1 (by norm_num)⟩

/-- Claim C4: the composer's retrieval score is the mean of the non-null
members of the context pair (0.0 when both are null), analogously for the
generation score; the default weights are 0.35 and 0.65; the overall score
produced by evaluate is the weighted sum of the two component scores; and
the quality level is the highest bucket whose lower cut point the overall
score meets or exceeds, ties going to the higher level. -/
theorem c4_score_composer (cfg : EvaluationConfig) (m : EvaluationResult)
    (q : ℚ) (oracle : ℕ → RagasRow) (ints : List Interaction)
    (h : ints ≠ [])
    (hord1 : cfg.poor_threshold < cfg.acceptable_threshold)
    (hord2 : cfg.acceptable_threshold < cfg.good_threshold)
    (hord3 : cfg.good_threshold < cfg.excellent_threshold) :
    calculateRetrievalScore m =
      specMeanPair m.avg_context_precision m.avg_context_relevancy ∧
    calculateGenerationScore m =
      specMeanPair m.avg_faithfulness m.avg_answer_relevancy ∧
    (({} : EvaluationConfig).retrieval_weight = 35/100 ∧
      ({} : EvaluationConfig).generation_weight = 65/100) ∧
    ((getQualityLevel cfg q = QualityLevel.excellent ↔
        cfg.excellent_threshold ≤ q) ∧
     (getQualityLevel cfg q = QualityLevel.good ↔
        cfg.good_threshold ≤ q ∧ q < cfg.excellent_threshold) ∧
     (getQualityLevel cfg q = QualityLevel.acceptable ↔
        cfg.acceptable_threshold ≤ q ∧ q < cfg.good_threshold) ∧
     (getQualityLevel cfg q = QualityLevel.poor ↔
        cfg.poor_threshold ≤ q ∧ q < cfg.acceptable_threshold) ∧
     (getQualityLevel cfg q = QualityLevel.critical ↔
        q < cfg.poor_threshold)) ∧
    (∃ out, evaluate cfg oracle ints = Except.ok out ∧
      out.overall_score = cfg.retrieval_weight * out.retrieval_score +
        cfg.generation_weight * out.generation_score ∧
      out.retrieval_score = calculateRetrievalScore out.metrics ∧
      out.generation_score = calculateGenerationScore out.metrics) := by
  have hne : ints.isEmpty = false := List.isEmpty_eq_false.mpr h
  refine ⟨?_, ?_, ⟨rfl, rfl⟩, ?_, ?_⟩
  · cases hA : m.avg_context_precision <;>
      cases hB : m.avg_context_relevancy <;>
      simp [calculateRetrievalScore, specMeanPair, someVals, hA, hB]
  · cases hA : m.avg_faithfulness <;>
      cases hB : m.avg_answer_relevancy <;>
      simp [calculateGenerationScore, specMeanPair, someVals, hA, hB]
  · unfold getQualityLevel
    split_ifs with h1 h2 h3 h4 <;>
      refine ⟨?_, ?_, ?_, ?_, ?_⟩ <;> simp <;> intros <;>
      first | linarith | (constructor <;> linarith)
  · unfold evaluate
    rw [if_neg (by simp [hne])]
    exact ⟨_, rfl, rfl, rfl, rfl⟩

/-- Witness for claim C4: the theorem applied at the default configuration,
the empty aggregate record, score 0, a constant null oracle and a singleton
interaction list, with all hypotheses discharged concretely. -/
theorem c4_witness :
    calculateRetrievalScore {} =
      specMeanPair ({} : EvaluationResult).avg_context_precision
        ({} : EvaluationResult).avg_context_relevancy ∧
    calculateGenerationScore {} =
      specMeanPair ({} : EvaluationResult).avg_faithfulness
        ({} : EvaluationResult).avg_answer_relevancy ∧
    (({} : EvaluationConfig).retrieval_weight = 35/100 ∧
      ({} : EvaluationConfig).generation_weight = 65/100) ∧
    ((getQualityLevel {} 0 = QualityLevel.excellent ↔
        ({} : EvaluationConfig).excellent_threshold ≤ 0) ∧
     (getQualityLevel {} 0 = QualityLevel.good ↔
        ({} : EvaluationConfig).good_threshold ≤ 0 ∧
          (0:ℚ) < ({} : EvaluationConfig).excellent_threshold) ∧
     (getQualityLevel {} 0 = QualityLevel.acceptable ↔
        ({} : EvaluationConfig).acceptable_threshold ≤ 0 ∧
          (0:ℚ) < ({} : EvaluationConfig).good_threshold) ∧
     (getQualityLevel {} 0 = QualityLevel.poor ↔
        ({} : EvaluationConfig).poor_threshold ≤ 0 ∧
          (0:ℚ) < ({} : EvaluationConfig).acceptable_threshold) ∧
     (getQualityLevel {} 0 = QualityLevel.critical ↔
        (0:ℚ) < ({} : EvaluationConfig).poor_threshold)) ∧
    (∃ out, evaluate {} (fun _ => {}) [⟨"q", "r", []⟩] = Except.ok out ∧
      out.overall_score =
        ({} : EvaluationConfig).retrieval_weight * out.retrieval_score +
        ({} : EvaluationConfig).generation_weight * out.generation_score ∧
      out.retrieval_score = calculateRetrievalScore out.metrics ∧
      out.generation_score = calculateGenerationScore out.metrics) :=
  c4_score_composer {} {} 0 (fun _ => {}) [⟨"q", "r", []⟩]
    (by simp) (by norm_num) (by norm_num) (by norm_num)

/-- With strictly ordered cut points, every score lies in exactly one of the
five half-open distribution buckets (a score at a cut point falls into the
higher bucket). -/
theorem bucket_indicator_sum (cfg : EvaluationConfig)
    (h1 : cfg.poor_threshold < cfg.acceptable_threshold)
    (h2 : cfg.acceptable_threshold < cfg.good_threshold)
    (h3 : cfg.good_threshold < cfg.excellent_threshold) (s : ℚ) :
    ((if cfg.excellent_threshold ≤ s then 1 else 0 : ℕ) +
     (if cfg.good_threshold ≤ s ∧ s < cfg.excellent_threshold then 1 else 0) +
     (if cfg.acceptable_threshold ≤ s ∧ s < cfg.good_threshold then 1 else 0) +
     (if cfg.poor_threshold ≤ s ∧ s < cfg.acceptable_threshold then 1 else 0) +
     (if s < cfg.poor_threshold then 1 else 0)) = 1 := by
  rcases le_or_lt cfg.excellent_threshold s with hA | hA
  · rw [if_pos hA,
      if_neg (fun hc => absurd hA (not_le.mpr hc.2)),
      if_neg (fun hc => absurd hc.2 (not_lt.mpr (le_trans h3.le hA))),
      if_neg (fun hc =>
        absurd hc.2 (not_lt.mpr (le_trans (lt_trans h2 h3).le hA))),
      if_neg (not_lt.mpr (le_trans (lt_trans (lt_trans h1 h2) h3).le hA))]
  · rcases le_or_lt cfg.good_threshold s with hB | hB
    · rw [if_neg (not_le.mpr hA), if_pos ⟨hB, hA⟩,
        if_neg (fun hc => absurd hc.2 (not_lt.mpr hB)),
        if_neg (fun hc => absurd hc.2 (not_lt.mpr (le_trans h2.le hB))),
        if_neg (not_lt.mpr (le_trans (lt_trans h1 h2).le hB))]
    · rcases le_or_lt cfg.acceptable_threshold s with hC | hC
      · rw [if_neg (not_le.mpr hA),
          if_neg (fun hc => absurd hc.1 (not_le.mpr hB)), if_pos ⟨hC, hB⟩,
          if_neg (fun hc => absurd hc.2 (not_lt.mpr hC)),
          if_neg (not_lt.mpr (le_trans h1.le hC))]
      · rcases le_or_lt cfg.poor_threshold s with hD | hD
        · rw [if_neg (not_le.mpr hA),
            if_neg (fun hc => absurd hc.1 (not_le.mpr hB)),
            if_neg (fun hc => absurd hc.1 (not_le.mpr hC)), if_pos ⟨hD, hC⟩,
            if_neg (not_lt.mpr hD)]
        · rw [if_neg (not_le.mpr hA),
            if_neg (fun hc => absurd hc.1 (not_le.mpr hB)),
            if_neg (fun hc => absurd hc.1 (not_le.mpr hC)),
            if_neg (fun hc => absurd hc.1 (not_le.mpr hD)), if_pos hD]

/-- With strictly ordered cut points, the five bucket counts of the score
distribution sum to the number of scores. -/
theorem scoreDistribution_sum (cfg : EvaluationConfig)
    (h1 : cfg.poor_threshold < cfg.acceptable_threshold)
    (h2 : cfg.acceptable_threshold < cfg.good_threshold)
    (h3 : cfg.good_threshold < cfg.excellent_threshold) (scores : List ℚ) :
    (scoreDistributionOf cfg scores).excellent +
    (scoreDistributionOf cfg scores).good +
    (scoreDistributionOf cfg scores).acceptable +
    (scoreDistributionOf cfg scores).poor +
    (scoreDistributionOf cfg scores).critical = scores.length := by
  induction scores with
  | nil => rfl
  | cons a t ih =>
    have hpt := bucket_indicator_sum cfg h1 h2 h3 a
    simp only [scoreDistributionOf, List.countP_cons, decide_eq_true_eq,
      List.length_cons] at *
    linarith [ih, hpt]

/-- The overall scores collected by the aggregator number exactly the
results that carry a non-null overall score. -/
theorem length_someVals (l : List InteractionResult) :
    (someVals (l.map (fun r => r.overall_score))).length =
      l.countP (fun r => r.overall_score.isSome) := by
  induction l with
  | nil => rfl
  | cons a t ih =>
    unfold someVals at ih ⊢
    rw [List.map_cons, List.filterMap_cons, List.countP_cons]
    cases ha : a.overall_score with
    | none =>
      simp only [ha, id_eq]
      rw [ih]
      simp
    | some x =>
      simp only [ha, id_eq]
      rw [List.length_cons, ih]
      simp

/-- Claim C5: for every non-empty result list and strictly ordered cut
points, the aggregator's score distribution assigns each non-null overall
score to exactly one half-open bucket (scores at a cut point go to the
higher bucket), and the five bucket counts sum to the number of results with
a non-null overall score. -/
theorem c5_distribution_partition (cfg : EvaluationConfig)
    (results : List InteractionResult) (h : results ≠ [])
    (h1 : cfg.poor_threshold < cfg.acceptable_threshold)
    (h2 : cfg.acceptable_threshold < cfg.good_threshold)
    (h3 : cfg.good_threshold < cfg.excellent_threshold) :
    ∃ d, (aggregateMetrics cfg results).score_distribution = some d ∧
      d.excellent + d.good + d.acceptable + d.poor + d.critical =
        results.countP (fun r => r.overall_score.isSome) ∧
      ∀ s : ℚ,
        ((if cfg.excellent_threshold ≤ s then 1 else 0 : ℕ) +
         (if cfg.good_threshold ≤ s ∧ s < cfg.excellent_threshold then 1
          else 0) +
         (if cfg.acceptable_threshold ≤ s ∧ s < cfg.good_threshold then 1
          else 0) +
         (if cfg.poor_threshold ≤ s ∧ s < cfg.acceptable_threshold then 1
          else 0) +
         (if s < cfg.poor_threshold then 1 else 0)) = 1 := by
  have hne : results.isEmpty = false := List.isEmpty_eq_false.mpr h
  refine ⟨scoreDistributionOf cfg
      (someVals (results.map (fun r => r.overall_score))), ?_, ?_,
    fun s => bucket_indicator_sum cfg h1 h2 h3 s⟩
  · unfold aggregateMetrics
    rw [if_neg (by simp [hne])]
  · rw [scoreDistribution_sum cfg h1 h2 h3, length_someVals]

/-- Witness for claim C5: the theorem applied to the default configuration
and a singleton result whose overall score is 1/2, hypotheses discharged
concretely. -/
theorem c5_witness :
    ∃ d, (aggregateMetrics {}
        [{ interaction := ⟨"q", "r", []⟩,
           overall_score := some (1/2) }]).score_distribution = some d ∧
      d.excellent + d.good + d.acceptable + d.poor + d.critical =
        List.countP (fun r : InteractionResult => r.overall_score.isSome)
          [{ interaction := ⟨"q", "r", []⟩, overall_score := some (1/2) }] ∧
      ∀ s : ℚ,
        ((if ({} : EvaluationConfig).excellent_threshold ≤ s then 1
          else 0 : ℕ) +
         (if ({} : EvaluationConfig).good_threshold ≤ s ∧
            s < ({} : EvaluationConfig).excellent_threshold then 1 else 0) +
         (if ({} : EvaluationConfig).acceptable_threshold ≤ s ∧
            s < ({} : EvaluationConfig).good_threshold then 1 else 0) +
         (if ({} : EvaluationConfig).poor_threshold ≤ s ∧
            s < ({} : EvaluationConfig).acceptable_threshold then 1 else 0) +
         (if s < ({} : EvaluationConfig).poor_threshold then 1 else 0)) = 1 :=
  c5_distribution_partition {}
    [{ interaction := ⟨"q", "r", []⟩, overall_score := some (1/2) }]
    (by simp) (by norm_num) (by norm_num) (by norm_num)

/-- Witness for claim C10: the theorem applied to a singleton interaction
with the all-null oracle, the per-result membership hypothesis discharged at
the concrete produced result. -/
theorem c10_witness :
    ({ interaction := ⟨"q", "r", []⟩ } : InteractionResult).context_relevancy
      = none ∧
    (aggregateMetrics {}
      (evaluateInteractions {} (fun _ => {})
        [⟨"q", "r", []⟩])).avg_context_relevancy = none :=
  ⟨(c10_context_relevancy_always_null {} (fun _ => {}) [⟨"q", "r", []⟩]).1
      { interaction := ⟨"q", "r", []⟩ } (by decide),
   (c10_context_relevancy_always_null {} (fun _ => {}) [⟨"q", "r", []⟩]).2.1⟩

end Rems
